import Mathlib

/-!
Verification of the snow-code ServiceNow OAuth2/PKCE credential-acquisition
core, shallowly embedded from:

- `packages/opencode/src/auth/index.ts` — the keyed credential store
  (`Auth.Info` union, `Auth.get`, `Auth.set`);
- `packages/opencode/src/cli/cmd/attach.ts` — the `ServiceNowOAuth` class with
  the localhost:3005 callback-server flow (rate limiter, secret validation,
  URL construction, callback handler, `authenticate`, `refreshAccessToken`);
- `packages/opencode/src/auth/servicenow-oauth.ts` — the code-paste variant of
  `ServiceNowOAuth` (redirect URI `urn:ietf:wg:oauth:2.0:oob`), embedded only
  as far as its URL/body parameter construction.

Modelling conventions: JavaScript strings are Lean `String`s (lengths are
counted in characters; `toLowerCase` is ASCII case folding via
`Char.toLower`); `undefined`/`null`-able fields are `Option`; JS truthiness of
an optional string/number is `truthyStr`/`truthyInt`; `Date.now()` is an
explicit `Int` parameter threaded to each operation; the network is an
explicit `FetchOutcome` oracle; Promise resolution is the write-once cell
`resolveOnce`. Side effects that the properties talk about (entropy
generation, listener bind, browser launch, outbound token-endpoint calls,
store writes) are recorded in an explicit `Effect` list.
-/

namespace SnowCode

/-- Truthiness of a JS string-or-undefined value: present and non-empty. -/
def truthyStr : Option String → Bool
  | none => false
  | some s => !(s == "")

/-- Truthiness of a JS number-or-undefined value: present and non-zero. -/
def truthyInt : Option Int → Bool
  | none => false
  | some n => !(n == 0)

/-- JS `String.prototype.includes`: substring containment. -/
def stringIncludes (s sub : String) : Bool :=
  decide (sub.data <:+: s.data)

/-- JS `String.prototype.toLowerCase`, ASCII case folding. -/
def toLowerStr (s : String) : String :=
  String.mk (s.data.map Char.toLower)

/-- JS `String.prototype.startsWith`. -/
def startsWithStr (s pre : String) : Bool :=
  pre.data.isPrefixOf s.data

/-- Leftmost-occurrence replacement on character lists (JS
`String.prototype.replace` with a string pattern replaces only the first
occurrence). -/
def replaceFirstL (pat repl : List Char) : List Char → List Char
  | [] => if pat.isPrefixOf ([] : List Char) then repl else []
  | c :: cs =>
    if pat.isPrefixOf (c :: cs) then repl ++ (c :: cs).drop pat.length
    else c :: replaceFirstL pat repl cs

/-- JS `s.replace(pat, repl)` for a plain-string pattern. -/
def replaceFirst (s pat repl : String) : String :=
  String.mk (replaceFirstL pat.data repl.data s.data)

/-- JS `s.replace(/\/+$/, "")`: strip all trailing slashes. -/
def stripTrailingSlashes (s : String) : String :=
  String.mk (s.data.reverse.dropWhile (fun c => c == '/')).reverse

/-- JS `String.prototype.trim`: drop whitespace from both ends. -/
def trimStr (s : String) : String :=
  String.mk ((s.data.dropWhile Char.isWhitespace).reverse.dropWhile Char.isWhitespace).reverse

/-! ## Credential store (`packages/opencode/src/auth/index.ts`) -/

/-- The `Auth.Info` discriminated union of credential records, one constructor
per `type` literal of the zod schema. -/
inductive Info where
  | oauth (refresh access : String) (expires : Int)
  | api (key : String)
  | wellknown (key token : String)
  | servicenowOAuth (instanceUrl clientId clientSecret : String)
      (accessToken refreshToken : Option String) (expiresAt : Option Int)
  | servicenowBasic (instanceUrl username password : String)
  | enterprise (licenseKey : String)
      (enterpriseUrl jiraBaseUrl jiraEmail jiraApiToken : Option String)
deriving DecidableEq, Repr

/-- The parsed contents of the `auth.json` file: a JS object mapping provider
id to credential record, embedded as an ordered association list with JS
object-key semantics (lookup finds the first binding; update overwrites in
place, insertion appends). -/
abbrev Store := List (String × Info)

namespace Auth

/-- `Auth.get(providerID)`: property lookup on the parsed store object. -/
def get (s : Store) (providerID : String) : Option Info :=
  (s.find? (fun p => p.1 == providerID)).map Prod.snd

/-- `Auth.set(key, info)`: read the whole store, write back
`{ ...data, [key]: info }` — the single key is overwritten (in place if
present, appended otherwise) and every other binding is carried over
unchanged.  The subsequent `chmod 0600` has no bearing on the contents. -/
def set (s : Store) (key : String) (info : Info) : Store :=
  if s.any (fun p => p.1 == key) then
    s.map (fun p => if p.1 == key then (key, info) else p)
  else
    s ++ [(key, info)]

end Auth

/-! ## Rate limiter (`attach.ts` `checkTokenRequestRateLimit`) -/

/-- Per-instance rate-limiter fields of `ServiceNowOAuth`:
`lastTokenRequest` (window start, ms) and `tokenRequestCount`. -/
structure RLState where
  lastTokenRequest : Int
  tokenRequestCount : Nat
deriving DecidableEq, Repr

/-- Field initializers of the class: `lastTokenRequest = 0`,
`tokenRequestCount = 0`. -/
def rlInit : RLState := ⟨0, 0⟩

def TOKEN_REQUEST_WINDOW_MS : Int := 60000

def MAX_TOKEN_REQUESTS_PER_WINDOW : Nat := 10

/-- `checkTokenRequestRateLimit()` at clock reading `now`: reset the window
if it expired, then deny (without incrementing) at the cap, else increment
and allow. -/
def checkTokenRequestRateLimit (now : Int) (s : RLState) : Bool × RLState :=
  let s :=
    if now - s.lastTokenRequest > TOKEN_REQUEST_WINDOW_MS then
      { lastTokenRequest := now, tokenRequestCount := 0 }
    else s
  if s.tokenRequestCount ≥ MAX_TOKEN_REQUESTS_PER_WINDOW then
    (false, s)
  else
    (true, { s with tokenRequestCount := s.tokenRequestCount + 1 })

/-- Fold of successive rate-limit checks over a list of clock readings,
returning the final state and each call's verdict. -/
def runRL : RLState → List Int → RLState × List Bool
  | s, [] => (s, [])
  | s, t :: ts =>
    let r := checkTokenRequestRateLimit t s
    let rest := runRL r.2 ts
    (rest.1, r.1 :: rest.2)

/-! ## Secret validation and URL normalization (`attach.ts`) -/

/-- Return shape of `validateClientSecret`. -/
structure ValidationResult where
  valid : Bool
  reason : Option String
deriving DecidableEq, Repr

/-- The deny-list of `validateClientSecret`. -/
def commonPasswords : List String := ["password", "admin", "secret", "client", "snow"]

/-- `validateClientSecret(secret)`: reject empty/whitespace-only, reject
length < 32, reject case-insensitive containment of a deny-list word.  The
source iterates the deny-list returning on the first hit; `List.find?`
mirrors that. -/
def validateClientSecret (secret : String) : ValidationResult :=
  if secret == "" || trimStr secret == "" then
    ⟨false, some "Client secret is required"⟩
  else if secret.length < 32 then
    ⟨false, some "Client secret is too short (should be 32+ characters)"⟩
  else
    match commonPasswords.find? (fun common => stringIncludes (toLowerStr secret) common) with
    | some _ =>
      ⟨false, some "Client secret appears to be a common password - it should be a random string from ServiceNow"⟩
    | none => ⟨true, none⟩

/-- `normalizeInstanceUrl(instance)`: strip trailing slashes, force a scheme,
and append `.service-now.com` to bare instance names. -/
def normalizeInstanceUrl (inst : String) : String :=
  let normalized := stripTrailingSlashes inst
  let normalized :=
    if !(startsWithStr normalized "http://") && !(startsWithStr normalized "https://") then
      "https://" ++ normalized
    else normalized
  if !(stringIncludes normalized ".service-now.com") &&
      !(stringIncludes normalized "localhost") &&
      !(stringIncludes normalized "127.0.0.1") then
    let instanceName := replaceFirst (replaceFirst normalized "https://" "") "http://" ""
    "https://" ++ instanceName ++ ".service-now.com"
  else normalized

/-! ## URLSearchParams serialization -/

/-- Characters URLSearchParams leaves unencoded
(`application/x-www-form-urlencoded`): ASCII alphanumerics and `*-._`. -/
def isUnreservedFormChar (c : Char) : Bool :=
  c.isAlphanum || c == '*' || c == '-' || c == '.' || c == '_'

/-- Uppercase hexadecimal digit for a nibble. -/
def hexDigit (n : Nat) : Char :=
  if n < 10 then Char.ofNat (48 + n) else Char.ofNat (55 + n)

/-- UTF-8 byte values of one character. -/
def utf8Bytes (c : Char) : List Nat :=
  let n := c.toNat
  if n < 128 then [n]
  else if n < 2048 then [192 + n / 64, 128 + n % 64]
  else if n < 65536 then [224 + n / 4096, 128 + (n / 64) % 64, 128 + n % 64]
  else [240 + n / 262144, 128 + (n / 4096) % 64, 128 + (n / 64) % 64, 128 + n % 64]

/-- Percent-encoding of one byte value. -/
def percentEncodeByte (b : Nat) : List Char :=
  ['%', hexDigit (b / 16), hexDigit (b % 16)]

/-- Form-encoding of one character: space becomes `+`, unreserved characters
pass through, everything else is percent-encoded per UTF-8 byte. -/
def formEncodeChar (c : Char) : List Char :=
  if c == ' ' then ['+']
  else if isUnreservedFormChar c then [c]
  else (utf8Bytes c).flatMap percentEncodeByte

/-- `URLSearchParams.prototype.toString` on a key-value list. -/
def formEncode (s : String) : String :=
  String.mk (s.data.flatMap formEncodeChar)

/-- Serialize a parameter list the way `new URLSearchParams({...}).toString()`
does. -/
def serializeParams (ps : List (String × String)) : String :=
  String.intercalate "&" (ps.map (fun p => formEncode p.1 ++ "=" ++ formEncode p.2))

/-- Lookup of a parameter's (pre-encoding) value in a parameter list. -/
def lookupParam (k : String) (ps : List (String × String)) : Option String :=
  (ps.find? (fun p => p.1 == k)).map Prod.snd

/-! ## Authorization URL and token-request bodies (`attach.ts`) -/

/-- The fixed local callback port of `authenticate` in `attach.ts`. -/
def attachPort : Nat := 3005

/-- The `URLSearchParams` argument of `generateAuthUrlWithCallback`. -/
def generateAuthUrlWithCallbackParams (clientId redirectUri state challenge : String) :
    List (String × String) :=
  [("response_type", "code"),
   ("client_id", clientId),
   ("redirect_uri", redirectUri),
   ("state", state),
   ("code_challenge", challenge),
   ("code_challenge_method", "S256")]

/-- `generateAuthUrlWithCallback(instance, clientId, redirectUri)` with the
session's state and PKCE challenge passed explicitly. -/
def generateAuthUrlWithCallback (instanceUrl clientId redirectUri state challenge : String) :
    String :=
  let baseUrl := if startsWithStr instanceUrl "http" then instanceUrl else "https://" ++ instanceUrl
  baseUrl ++ "/oauth_auth.do?" ++
    serializeParams (generateAuthUrlWithCallbackParams clientId redirectUri state challenge)

/-- The `URLSearchParams` POST body of `exchangeCodeForTokens` in `attach.ts`
(note the hard-coded redirect URI). -/
def exchangeTokenParams (clientId clientSecret code codeVerifier : String) :
    List (String × String) :=
  [("grant_type", "authorization_code"),
   ("code", code),
   ("redirect_uri", "http://localhost:3005/callback"),
   ("client_id", clientId),
   ("client_secret", clientSecret),
   ("code_verifier", codeVerifier)]

/-! ## Code-paste flow (`packages/opencode/src/auth/servicenow-oauth.ts`) -/

namespace SnowPaste

/-- The `URLSearchParams` argument of `generateAuthUrl` in
`servicenow-oauth.ts` — its redirect URI is the out-of-band URN. -/
def generateAuthUrlParams (clientId state challenge : String) : List (String × String) :=
  [("response_type", "code"),
   ("client_id", clientId),
   ("redirect_uri", "urn:ietf:wg:oauth:2.0:oob"),
   ("state", state),
   ("code_challenge", challenge),
   ("code_challenge_method", "S256")]

/-- `generateAuthUrl(instance, clientId)` of `servicenow-oauth.ts`. -/
def generateAuthUrl (instanceUrl clientId state challenge : String) : String :=
  let baseUrl := if startsWithStr instanceUrl "http" then instanceUrl else "https://" ++ instanceUrl
  baseUrl ++ "/oauth_auth.do?" ++
    SnowCode.serializeParams (generateAuthUrlParams clientId state challenge)

/-- The `URLSearchParams` POST body of `exchangeCodeForTokens` in
`servicenow-oauth.ts`. -/
def exchangeTokenParams (clientId clientSecret code codeVerifier : String) :
    List (String × String) :=
  [("grant_type", "authorization_code"),
   ("code", code),
   ("redirect_uri", "urn:ietf:wg:oauth:2.0:oob"),
   ("client_id", clientId),
   ("client_secret", clientSecret),
   ("code_verifier", codeVerifier)]

end SnowPaste

/-! ## Token endpoint client (`attach.ts` `exchangeCodeForTokens` /
`refreshAccessToken`) -/

/-- Return shape `ServiceNowAuthResult` of the flow operations. -/
structure AuthResult where
  success : Bool
  accessToken : Option String
  refreshToken : Option String
  expiresIn : Option Int
  error : Option String
deriving DecidableEq, Repr

/-- Fields this client reads out of the token endpoint's JSON body; absent
fields are `none`. -/
structure TokenJson where
  access_token : Option String
  refresh_token : Option String
  expires_in : Option Int
  error : Option String
  error_description : Option String
deriving DecidableEq, Repr

/-- Outcome of one `fetch` of the token endpoint: the `fetch` call threw, the
response was non-2xx (`!response.ok`, with status and body text), or a JSON
body was obtained. -/
inductive FetchOutcome where
  | thrown (msg : String)
  | httpError (status : Nat) (text : String)
  | ok (body : TokenJson)
deriving DecidableEq, Repr

/-- `exchangeCodeForTokens(instance, clientId, clientSecret, code)` at clock
reading `now`, with the network abstracted by `net`.  Returns the
`ServiceNowAuthResult`, the updated rate-limiter state, and whether an
outbound network call was made.  The POST body it would send is
`exchangeTokenParams` (the instance/client/code/verifier arguments only feed
that body, which the `net` oracle abstracts). -/
def exchangeCodeForTokens (now : Int) (rl : RLState) (net : FetchOutcome) :
    AuthResult × RLState × Bool :=
  match checkTokenRequestRateLimit now rl with
  | (false, rl1) =>
    (⟨false, none, none, none, some "Rate limit exceeded. Please wait before retrying."⟩,
      rl1, false)
  | (true, rl1) =>
    match net with
    | .thrown msg => (⟨false, none, none, none, some msg⟩, rl1, true)
    | .httpError status text =>
      (⟨false, none, none, none,
        some ("Token exchange failed: " ++ toString status ++ " " ++ text)⟩, rl1, true)
    | .ok body =>
      if truthyStr body.error then
        (⟨false, none, none, none,
          some ("OAuth error: " ++ body.error.getD "" ++ " - " ++ body.error_description.getD "")⟩,
          rl1, true)
      else
        (⟨true, body.access_token, body.refresh_token, body.expires_in, none⟩, rl1, true)

/-! ## Callback listener (`attach.ts` `startCallbackServer`) -/

/-- Query parameters and path of one inbound HTTP request, as read by the
handler via `url.searchParams.get` (absent parameter ↦ `none`, which embeds
JS `null`). -/
structure CallbackRequest where
  pathname : String
  code : Option String
  error : Option String
  state : Option String
deriving DecidableEq, Repr

/-- Which HTML template (or plain body) the handler responds with. -/
inductive Page where
  | securityError
  | errorPage (msg : String)
  | missingCode
  | successPage
  | tokenExchangeFailed (msg : String)
  | notFound
deriving DecidableEq, Repr

/-- Observable outcome of running the request handler on one request: HTTP
status, rendered page, the resolution passed to `resolve` (if any), whether
`server.close()` was called, whether `exchangeCodeForTokens` was invoked,
and whether that exchange made a network call. -/
structure HandlerResult where
  status : Nat
  page : Page
  resolved : Option AuthResult
  closed : Bool
  exchangeInvoked : Bool
  networkCalled : Bool
deriving DecidableEq, Repr

/-- The `createServer` request handler of `startCallbackServer`: 404 off the
callback path; on `/callback` check `state` strictly against the session's
state parameter first, then the `error` parameter (truthiness), then the
presence of `code` (truthiness), and only then exchange the code. -/
def handleCallbackRequest (sessionState : String) (req : CallbackRequest)
    (now : Int) (rl : RLState) (net : FetchOutcome) : HandlerResult × RLState :=
  if req.pathname = "/callback" then
    if req.state ≠ some sessionState then
      (⟨400, .securityError,
        some ⟨false, none, none, none, some "Invalid state parameter"⟩,
        true, false, false⟩, rl)
    else if truthyStr req.error then
      let e := req.error.getD ""
      (⟨400, .errorPage ("OAuth error: " ++ e),
        some ⟨false, none, none, none, some ("OAuth error: " ++ e)⟩,
        true, false, false⟩, rl)
    else if !(truthyStr req.code) then
      (⟨400, .missingCode,
        some ⟨false, none, none, none, some "No authorization code received"⟩,
        true, false, false⟩, rl)
    else
      match exchangeCodeForTokens now rl net with
      | (tr, rl1, netCalled) =>
        if tr.success then
          (⟨200, .successPage, some tr, true, true, netCalled⟩, rl1)
        else
          (⟨500, .tokenExchangeFailed (tr.error.getD "Unknown error"), some tr,
            true, true, netCalled⟩, rl1)
  else
    (⟨404, .notFound, none, false, false, false⟩, rl)

/-- Promise resolution: the first `resolve` wins, later calls are no-ops. -/
def resolveOnce (cell : Option AuthResult) (r : AuthResult) : Option AuthResult :=
  match cell with
  | some r0 => some r0
  | none => some r

/-- The `resolve` argument of the five-minute `setTimeout`. -/
def timeoutResult : AuthResult :=
  ⟨false, none, none, none, some "Authentication timeout (5 minutes)"⟩

/-- State of one flow's callback listener: whether the socket still accepts
new connections, the promise's resolution cell, the rate-limiter state, and
counters of exchange invocations and outbound network calls. -/
structure ServerState where
  listening : Bool
  resolution : Option AuthResult
  rl : RLState
  exchanges : Nat
  networkCalls : Nat
deriving DecidableEq, Repr

/-- Listener state at `server.listen(port)`. -/
def serverInit (rl : RLState) : ServerState :=
  ⟨true, none, rl, 0, 0⟩

/-- One externally triggered event during the listening phase: an inbound
HTTP request (with the clock reading and network oracle its processing
uses), an exception thrown inside the handler (its `catch` branch), or the
five-minute timer firing. -/
inductive FlowEvent where
  | request (req : CallbackRequest) (now : Int) (net : FetchOutcome)
  | handlerThrow (msg : String)
  | timerFire
deriving DecidableEq, Repr

/-- One step of the listener.  The timer's callback always runs: it calls
`server.close()` (a no-op on an already-closed server) and `resolve` (a
no-op on an already-resolved promise).  A request reaching a closed listener
is refused by the socket, so the handler never runs for it.  The handler's
`catch` branch responds 500, closes, and resolves with the error message. -/
def serverStep (sessionState : String) (st : ServerState) : FlowEvent → ServerState
  | .timerFire =>
    { st with listening := false, resolution := resolveOnce st.resolution timeoutResult }
  | .handlerThrow msg =>
    if st.listening then
      { st with
          listening := false,
          resolution := resolveOnce st.resolution ⟨false, none, none, none, some msg⟩ }
    else st
  | .request req now net =>
    if st.listening then
      match handleCallbackRequest sessionState req now st.rl net with
      | (hr, rl1) =>
        { listening := !hr.closed,
          resolution :=
            match hr.resolved with
            | some r => resolveOnce st.resolution r
            | none => st.resolution,
          rl := rl1,
          exchanges := st.exchanges + (if hr.exchangeInvoked then 1 else 0),
          networkCalls := st.networkCalls + (if hr.networkCalled then 1 else 0) }
    else st

/-- Fold of `serverStep` over an event sequence. -/
def runServer (sessionState : String) (st : ServerState) : List FlowEvent → ServerState
  | [] => st
  | ev :: evs => runServer sessionState (serverStep sessionState st ev) evs

/-! ## Orchestrator (`attach.ts` `authenticate`, `refreshAccessToken`) -/

/-- `ServiceNowOAuthOptions`. -/
structure OAuthOptions where
  instanceUrl : String
  clientId : String
  clientSecret : String
deriving DecidableEq, Repr

/-- Oracle for the cryptographically random material one flow generates
(`generateState` / `generatePKCE`). -/
structure GenMaterial where
  stateParam : String
  codeVerifier : String
  codeChallenge : String
deriving DecidableEq, Repr

/-- Side effects of one flow that the correctness properties talk about. -/
inductive Effect where
  | genSecret
  | openBrowser (url : String)
  | bindListener (port : Nat)
  | network
  | storeWrite (key : String) (info : Info)
deriving DecidableEq, Repr

/-- Whether an effect is a credential-store write. -/
def Effect.isStoreWrite : Effect → Bool
  | .storeWrite _ _ => true
  | _ => false

/-- Result of one `authenticate` run: the resolved `ServiceNowAuthResult`
(`none` while no resolution event has occurred), the credential store after
the run, and the recorded side effects. -/
structure FlowOutcome where
  result : Option AuthResult
  store : Store
  effects : List Effect
deriving DecidableEq, Repr

/-- Effects of the flow up to (not including) persistence: secret-material
generation, the best-effort browser launch at the authorization URL, the
listener bind on the fixed port, and one `network` entry per outbound
token-endpoint call. -/
def baseEffects (authUrl : String) (networkCalls : Nat) : List Effect :=
  [Effect.genSecret, Effect.openBrowser authUrl, Effect.bindListener attachPort] ++
    List.replicate networkCalls Effect.network

/-- Authorization URL computed inside `authenticate`: the normalized
instance, the client id, and the fixed `http://localhost:3005/callback`
redirect URI built from `port = 3005`. -/
def attachAuthUrl (opts : OAuthOptions) (gen : GenMaterial) : String :=
  generateAuthUrlWithCallback (normalizeInstanceUrl opts.instanceUrl) opts.clientId
    ("http://localhost:" ++ toString attachPort ++ "/callback")
    gen.stateParam gen.codeChallenge

/-- The object literal `authenticate` passes to `Auth.set("servicenow", ...)`
on success: normalized instance, the flow's client id/secret, the result's
tokens, and `expiresAt = Date.now() + expiresIn*1000` when `expiresIn` is
truthy (`undefined` otherwise). -/
def attachCred (opts : OAuthOptions) (r : AuthResult) (persistNow : Int) : Info :=
  Info.servicenowOAuth (normalizeInstanceUrl opts.instanceUrl) opts.clientId opts.clientSecret
    r.accessToken r.refreshToken
    (if truthyInt r.expiresIn then some (persistNow + r.expiresIn.getD 0 * 1000) else none)

/-- `authenticate(options)` of `attach.ts`: normalize the instance URL,
validate the client secret (failure returns the specific reason before any
other activity), generate state/PKCE, build the authorization URL on the
`http://localhost:3005/callback` redirect, open the browser, run the
callback listener over the flow's events, and persist the credential iff
the resolution succeeded with a truthy access token.  `persistNow` is the
`Date.now()` reading of the persistence step; `rl0` the instance's
rate-limiter state at entry. -/
def authenticate (opts : OAuthOptions) (gen : GenMaterial) (rl0 : RLState)
    (evs : List FlowEvent) (persistNow : Int) (store : Store) : FlowOutcome :=
  let secretValidation := validateClientSecret opts.clientSecret
  if secretValidation.valid = false then
    { result := some ⟨false, none, none, none, secretValidation.reason⟩,
      store := store, effects := [] }
  else
    let fin := runServer gen.stateParam (serverInit rl0) evs
    match fin.resolution with
    | none =>
      { result := none, store := store,
        effects := baseEffects (attachAuthUrl opts gen) fin.networkCalls }
    | some r =>
      if r.success && truthyStr r.accessToken then
        { result := some r,
          store := Auth.set store "servicenow" (attachCred opts r persistNow),
          effects := baseEffects (attachAuthUrl opts gen) fin.networkCalls ++
            [Effect.storeWrite "servicenow" (attachCred opts r persistNow)] }
      else
        { result := some r, store := store,
          effects := baseEffects (attachAuthUrl opts gen) fin.networkCalls }

/-- Result of one `refreshAccessToken` run. -/
structure RefreshOutcome where
  result : AuthResult
  rl : RLState
  store : Store
  networkCalled : Bool
  effects : List Effect
deriving DecidableEq, Repr

/-- `refreshAccessToken(instance, clientId, clientSecret, refreshToken)` of
`attach.ts` at clock reading `now`: rate-limit gate, POST of the
refresh-token grant (abstracted by `net`), and on success an in-place
update of the stored credential — the refresh token falls back to the prior
one when the response's is falsy, and the expiry is recomputed as an
absolute timestamp. -/
def refreshAccessToken (instanceUrl clientId clientSecret refreshToken : String)
    (now : Int) (rl : RLState) (net : FetchOutcome) (store : Store) : RefreshOutcome :=
  match checkTokenRequestRateLimit now rl with
  | (false, rl1) =>
    { result := ⟨false, none, none, none, some "Rate limit exceeded"⟩,
      rl := rl1, store := store, networkCalled := false, effects := [] }
  | (true, rl1) =>
    match net with
    | .thrown msg =>
      { result := ⟨false, none, none, none, some msg⟩,
        rl := rl1, store := store, networkCalled := true, effects := [Effect.network] }
    | .httpError status _ =>
      { result := ⟨false, none, none, none,
          some ("Token refresh failed: " ++ toString status)⟩,
        rl := rl1, store := store, networkCalled := true, effects := [Effect.network] }
    | .ok body =>
      if truthyStr body.error then
        { result := ⟨false, none, none, none,
            some ("OAuth error: " ++ body.error.getD "")⟩,
          rl := rl1, store := store, networkCalled := true, effects := [Effect.network] }
      else
        let newRefresh :=
          if truthyStr body.refresh_token then body.refresh_token.getD "" else refreshToken
        let cred : Info :=
          Info.servicenowOAuth instanceUrl clientId clientSecret
            body.access_token (some newRefresh)
            (if truthyInt body.expires_in then some (now + body.expires_in.getD 0 * 1000)
             else none)
        { result := ⟨true, body.access_token, some newRefresh, body.expires_in, none⟩,
          rl := rl1,
          store := Auth.set store "servicenow" cred,
          networkCalled := true,
          effects := [Effect.network, Effect.storeWrite "servicenow" cred] }

/-! ## Lemmas: credential store -/

lemma get_cons (p : String × Info) (ps : Store) (other : String) :
    Auth.get (p :: ps) other =
      if (p.1 == other) = true then some p.2 else Auth.get ps other := by
  by_cases h : (p.1 == other) = true
  · rw [if_pos h]
    simp [Auth.get, h]
  · rw [if_neg h]
    simp [Auth.get, h]

lemma set_nil (key : String) (info : Info) :
    Auth.set ([] : Store) key info = [(key, info)] := by
  simp [Auth.set]

lemma set_cons_of_key_ne {p : String × Info} {ps : Store} {key : String} {info : Info}
    (hp : ¬ ((p.1 == key) = true)) :
    Auth.set (p :: ps) key info = p :: Auth.set ps key info := by
  have hp' : (p.1 == key) = false := by simpa using hp
  unfold Auth.set
  simp only [List.any_cons, hp', Bool.false_or]
  split
  · simp only [List.map_cons, if_neg hp]
  · simp only [List.cons_append]

lemma set_cons_of_key_eq {p : String × Info} {ps : Store} {key : String} {info : Info}
    (hp : (p.1 == key) = true) :
    Auth.set (p :: ps) key info =
      (key, info) :: ps.map (fun q => if q.1 == key then (key, info) else q) := by
  unfold Auth.set
  simp only [List.any_cons, hp, Bool.true_or, if_pos, List.map_cons, if_pos hp]

lemma get_map_overwrite {key other : String} {info : Info}
    (h : ¬ ((key == other) = true)) :
    ∀ ps : Store,
      Auth.get (ps.map (fun q => if q.1 == key then (key, info) else q)) other =
        Auth.get ps other := by
  intro ps
  induction ps with
  | nil => rfl
  | cons q qs ih =>
    simp only [List.map_cons]
    by_cases hq : (q.1 == key) = true
    · rw [if_pos hq]
      have hq1 : q.1 = key := by simpa using hq
      have hqo : ¬ ((q.1 == other) = true) := by rw [hq1]; exact h
      rw [get_cons, get_cons, if_neg h, if_neg hqo]
      exact ih
    · rw [if_neg hq, get_cons, get_cons]
      by_cases hqo : (q.1 == other) = true
      · rw [if_pos hqo, if_pos hqo]
      · rw [if_neg hqo, if_neg hqo]
        exact ih

lemma get_set_same (s : Store) (key : String) (info : Info) :
    Auth.get (Auth.set s key info) key = some info := by
  induction s with
  | nil =>
    rw [set_nil, get_cons]
    simp
  | cons p ps ih =>
    by_cases hp : (p.1 == key) = true
    · rw [set_cons_of_key_eq hp, get_cons]
      simp
    · rw [set_cons_of_key_ne hp, get_cons, if_neg hp]
      exact ih

lemma get_set_other (s : Store) (key other : String) (info : Info) (h : other ≠ key) :
    Auth.get (Auth.set s key info) other = Auth.get s other := by
  have hko : ¬ ((key == other) = true) := by simpa using Ne.symm h
  induction s with
  | nil =>
    rw [set_nil, get_cons, if_neg hko]
  | cons p ps ih =>
    by_cases hp : (p.1 == key) = true
    · have hp1 : p.1 = key := by simpa using hp
      have hpo : ¬ ((p.1 == other) = true) := by rw [hp1]; exact hko
      rw [set_cons_of_key_eq hp, get_cons, if_neg hko, get_cons, if_neg hpo]
      exact get_map_overwrite hko ps
    · rw [set_cons_of_key_ne hp, get_cons, get_cons]
      by_cases hpo : (p.1 == other) = true
      · rw [if_pos hpo, if_pos hpo]
      · rw [if_neg hpo, if_neg hpo]
        exact ih

/-- C8: after `Auth.set(id, c)`, `Auth.get(id)` returns exactly `c`, and for
every other key `id' ≠ id`, `Auth.get(id')` returns the same record it
returned before the write — `set` merges into the existing mapping instead
of replacing the store. -/
theorem claim_C8 (s : Store) (id idOther : String) (c : Info) (h : idOther ≠ id) :
    Auth.get (Auth.set s id c) id = some c ∧
    Auth.get (Auth.set s id c) idOther = Auth.get s idOther :=
  ⟨get_set_same s id c, get_set_other s id idOther c h⟩

/-- Witness for C8 at a concrete two-entry store. -/
theorem claim_C8_witness :
    Auth.get (Auth.set [("anthropic", Info.api "k1"), ("servicenow", Info.api "k2")]
        "servicenow" (Info.api "k3")) "servicenow" = some (Info.api "k3") ∧
    Auth.get (Auth.set [("anthropic", Info.api "k1"), ("servicenow", Info.api "k2")]
        "servicenow" (Info.api "k3")) "anthropic" =
      Auth.get [("anthropic", Info.api "k1"), ("servicenow", Info.api "k2")] "anthropic" :=
  claim_C8 [("anthropic", Info.api "k1"), ("servicenow", Info.api "k2")]
    "servicenow" "anthropic" (Info.api "k3") (by decide)

/-! ## Lemmas: rate limiter -/

lemma checkRL_in_window_allowed {t w : Int} {c : Nat}
    (hw : t - w ≤ TOKEN_REQUEST_WINDOW_MS) (hc : c < MAX_TOKEN_REQUESTS_PER_WINDOW) :
    checkTokenRequestRateLimit t ⟨w, c⟩ = (true, ⟨w, c + 1⟩) := by
  unfold checkTokenRequestRateLimit
  rw [if_neg (by omega : ¬ (t - w > TOKEN_REQUEST_WINDOW_MS))]
  rw [if_neg (by omega : ¬ (c ≥ MAX_TOKEN_REQUESTS_PER_WINDOW))]

lemma checkRL_at_cap {t w : Int}
    (hw : t - w ≤ TOKEN_REQUEST_WINDOW_MS) :
    checkTokenRequestRateLimit t ⟨w, MAX_TOKEN_REQUESTS_PER_WINDOW⟩ =
      (false, ⟨w, MAX_TOKEN_REQUESTS_PER_WINDOW⟩) := by
  unfold checkTokenRequestRateLimit
  rw [if_neg (by omega : ¬ (t - w > TOKEN_REQUEST_WINDOW_MS))]
  rw [if_pos (le_refl MAX_TOKEN_REQUESTS_PER_WINDOW)]

lemma checkRL_reset {t w : Int} {c : Nat}
    (hw : t - w > TOKEN_REQUEST_WINDOW_MS) :
    checkTokenRequestRateLimit t ⟨w, c⟩ = (true, ⟨t, 1⟩) := by
  unfold checkTokenRequestRateLimit
  rw [if_pos hw]
  rw [if_neg (by unfold MAX_TOKEN_REQUESTS_PER_WINDOW; omega : ¬ ((0 : Nat) ≥ MAX_TOKEN_REQUESTS_PER_WINDOW))]

lemma runRL_in_window {w : Int} :
    ∀ (ts : List Int) (c : Nat), (∀ t ∈ ts, t - w ≤ TOKEN_REQUEST_WINDOW_MS) →
      c + ts.length ≤ MAX_TOKEN_REQUESTS_PER_WINDOW →
      runRL ⟨w, c⟩ ts = (⟨w, c + ts.length⟩, List.replicate ts.length true)
  | [], c, _, _ => by simp [runRL]
  | t :: ts, c, hin, hlen => by
    have hl : (t :: ts).length = ts.length + 1 := rfl
    rw [hl] at hlen
    have ht : t - w ≤ TOKEN_REQUEST_WINDOW_MS := hin t (List.mem_cons_self t ts)
    have hc : c < MAX_TOKEN_REQUESTS_PER_WINDOW := by omega
    have hrest := runRL_in_window ts (c + 1)
      (fun x hx => hin x (List.mem_cons_of_mem t hx)) (by omega)
    simp only [runRL, checkRL_in_window_allowed ht hc, hrest, List.length_cons,
      List.replicate_succ]
    have harith : c + 1 + ts.length = c + (ts.length + 1) := by omega
    rw [harith]

/-- C4: starting a fresh instance at clock `t0` (with its initial window long
expired), the first rate-limit check opens a window at `t0` and is allowed;
the next nine checks inside that window are all allowed, reaching the cap of
10; an 11th check inside the window returns `false` without incrementing the
counter, and at that state the exchange and refresh operations return their
rate-limit failures with no network call (and no store write for refresh);
once elapsed time since the window start exceeds 60000 ms, the counter and
window start reset and the call is allowed again. -/
theorem claim_C4 (t0 tDenied tReset : Int) (ts : List Int) (net : FetchOutcome)
    (h0 : t0 > 60000) (hts : ts.length = 9)
    (hin : ∀ t ∈ ts, t - t0 ≤ 60000)
    (hD : tDenied - t0 ≤ 60000) (hR : tReset - t0 > 60000) :
    checkTokenRequestRateLimit t0 rlInit = (true, ⟨t0, 1⟩) ∧
    runRL ⟨t0, 1⟩ ts = (⟨t0, 10⟩, List.replicate 9 true) ∧
    checkTokenRequestRateLimit tDenied ⟨t0, 10⟩ = (false, ⟨t0, 10⟩) ∧
    exchangeCodeForTokens tDenied ⟨t0, 10⟩ net =
      (⟨false, none, none, none, some "Rate limit exceeded. Please wait before retrying."⟩,
        ⟨t0, 10⟩, false) ∧
    (∀ (i c s r : String) (store : Store),
      refreshAccessToken i c s r tDenied ⟨t0, 10⟩ net store =
        ⟨⟨false, none, none, none, some "Rate limit exceeded"⟩, ⟨t0, 10⟩, store, false, []⟩) ∧
    checkTokenRequestRateLimit tReset ⟨t0, 10⟩ = (true, ⟨tReset, 1⟩) := by
  have hfirst : checkTokenRequestRateLimit t0 rlInit = (true, ⟨t0, 1⟩) := by
    have := checkRL_reset (t := t0) (w := 0) (c := 0)
      (by unfold TOKEN_REQUEST_WINDOW_MS; omega)
    simpa [rlInit] using this
  have hcap : checkTokenRequestRateLimit tDenied ⟨t0, 10⟩ = (false, ⟨t0, 10⟩) :=
    checkRL_at_cap (by unfold TOKEN_REQUEST_WINDOW_MS; omega)
  refine ⟨hfirst, ?_, hcap, ?_, ?_, ?_⟩
  · have := runRL_in_window (w := t0) ts 1
      (by intro t ht; unfold TOKEN_REQUEST_WINDOW_MS; exact hin t ht)
      (by unfold MAX_TOKEN_REQUESTS_PER_WINDOW; omega)
    simpa [hts] using this
  · unfold exchangeCodeForTokens
    rw [hcap]
  · intro i c s r store
    unfold refreshAccessToken
    rw [hcap]
  · exact checkRL_reset (by unfold TOKEN_REQUEST_WINDOW_MS; omega)

/-- Witness for C4, at the concrete window opening at 70000. -/
theorem claim_C4_witness :
    checkTokenRequestRateLimit 70000 rlInit = (true, ⟨70000, 1⟩) ∧
    runRL ⟨70000, 1⟩ [70001, 70002, 70003, 70004, 70005, 70006, 70007, 70008, 70009] =
      (⟨70000, 10⟩, List.replicate 9 true) ∧
    checkTokenRequestRateLimit 70010 ⟨70000, 10⟩ = (false, ⟨70000, 10⟩) ∧
    exchangeCodeForTokens 70010 ⟨70000, 10⟩ (.httpError 500 "x") =
      (⟨false, none, none, none, some "Rate limit exceeded. Please wait before retrying."⟩,
        ⟨70000, 10⟩, false) ∧
    refreshAccessToken "inst" "cid" "sec" "rt" 70010 ⟨70000, 10⟩ (.httpError 500 "x") [] =
      ⟨⟨false, none, none, none, some "Rate limit exceeded"⟩, ⟨70000, 10⟩, [], false, []⟩ ∧
    checkTokenRequestRateLimit 140000 ⟨70000, 10⟩ = (true, ⟨140000, 1⟩) := by
  have h := claim_C4 70000 70010 140000
    [70001, 70002, 70003, 70004, 70005, 70006, 70007, 70008, 70009]
    (.httpError 500 "x") (by omega) (by decide) (by decide) (by omega) (by omega)
  exact ⟨h.1, h.2.1, h.2.2.1, h.2.2.2.1, h.2.2.2.2.1 "inst" "cid" "sec" "rt" [], h.2.2.2.2.2⟩

/-! ## Lemmas: secret validation and validation-failure abort -/

lemma validate_empty {s : String} (h : s = "" ∨ trimStr s = "") :
    validateClientSecret s = ⟨false, some "Client secret is required"⟩ := by
  unfold validateClientSecret
  rw [if_pos (by rcases h with h | h <;> simp [h])]

lemma validate_short {s : String} (h1 : ¬ (s = "" ∨ trimStr s = "")) (h2 : s.length < 32) :
    validateClientSecret s =
      ⟨false, some "Client secret is too short (should be 32+ characters)"⟩ := by
  unfold validateClientSecret
  rw [if_neg (by simpa using h1), if_pos h2]

lemma validate_common {s : String} (h1 : ¬ (s = "" ∨ trimStr s = ""))
    (h2 : ¬ (s.length < 32))
    (h3 : ∃ w ∈ commonPasswords, w.data <:+: (toLowerStr s).data) :
    validateClientSecret s =
      ⟨false, some "Client secret appears to be a common password - it should be a random string from ServiceNow"⟩ := by
  unfold validateClientSecret
  rw [if_neg (by simpa using h1), if_neg h2]
  obtain ⟨w, hw, hinf⟩ := h3
  cases hfind : commonPasswords.find? (fun common => stringIncludes (toLowerStr s) common) with
  | some w' => rfl
  | none =>
    exfalso
    have hnone := List.find?_eq_none.mp hfind w hw
    exact hnone (by unfold stringIncludes; exact decide_eq_true hinf)

lemma validate_ok {s : String} (h1 : ¬ (s = "" ∨ trimStr s = ""))
    (h2 : ¬ (s.length < 32))
    (h3 : ∀ w ∈ commonPasswords, ¬ w.data <:+: (toLowerStr s).data) :
    validateClientSecret s = ⟨true, none⟩ := by
  unfold validateClientSecret
  rw [if_neg (by simpa using h1), if_neg h2]
  have hfind : commonPasswords.find? (fun common => stringIncludes (toLowerStr s) common) = none :=
    List.find?_eq_none.mpr (fun w hw => by
      unfold stringIncludes
      simpa using h3 w hw)
  rw [hfind]

lemma authenticate_invalid {opts : OAuthOptions} {gen : GenMaterial} {rl0 : RLState}
    {evs : List FlowEvent} {persistNow : Int} {store : Store}
    (h : (validateClientSecret opts.clientSecret).valid = false) :
    authenticate opts gen rl0 evs persistNow store =
      ⟨some ⟨false, none, none, none, (validateClientSecret opts.clientSecret).reason⟩,
        store, []⟩ := by
  simp only [authenticate]
  rw [if_pos h]

/-- C5: `authenticate` fails with the specific reason — and performs no
secret generation, listener bind, network call, or store write (the effect
list is empty) — exactly when the client secret is empty or whitespace-only,
shorter than 32 characters, or contains (after ASCII lowercasing) one of the
deny-list substrings; every secret passing all three checks validates. -/
theorem claim_C5 :
    (∀ s : String, (validateClientSecret s).valid = true ↔
        (¬ (s = "" ∨ trimStr s = "") ∧ 32 ≤ s.length ∧
          ∀ w ∈ commonPasswords, ¬ w.data <:+: (toLowerStr s).data)) ∧
    (∀ s : String, (s = "" ∨ trimStr s = "") →
        validateClientSecret s = ⟨false, some "Client secret is required"⟩) ∧
    (∀ s : String, ¬ (s = "" ∨ trimStr s = "") → s.length < 32 →
        validateClientSecret s =
          ⟨false, some "Client secret is too short (should be 32+ characters)"⟩) ∧
    (∀ s : String, ¬ (s = "" ∨ trimStr s = "") → 32 ≤ s.length →
        (∃ w ∈ commonPasswords, w.data <:+: (toLowerStr s).data) →
        validateClientSecret s =
          ⟨false, some "Client secret appears to be a common password - it should be a random string from ServiceNow"⟩) ∧
    (∀ (opts : OAuthOptions) (gen : GenMaterial) (rl0 : RLState) (evs : List FlowEvent)
        (persistNow : Int) (store : Store),
      (validateClientSecret opts.clientSecret).valid = false →
      authenticate opts gen rl0 evs persistNow store =
        ⟨some ⟨false, none, none, none, (validateClientSecret opts.clientSecret).reason⟩,
          store, []⟩) := by
  refine ⟨?_, fun s h => validate_empty h,
    fun s h1 h2 => validate_short h1 h2,
    fun s h1 h2 h3 => validate_common h1 (by omega) h3,
    fun opts gen rl0 evs persistNow store h => authenticate_invalid h⟩
  intro s
  by_cases h1 : s = "" ∨ trimStr s = ""
  · rw [validate_empty h1]
    constructor
    · intro h
      exact absurd h (by simp)
    · rintro ⟨hcontra, -, -⟩
      exact absurd h1 hcontra
  · by_cases h2 : s.length < 32
    · rw [validate_short h1 h2]
      constructor
      · intro h
        exact absurd h (by simp)
      · rintro ⟨-, hlen, -⟩
        omega
    · by_cases h3 : ∃ w ∈ commonPasswords, w.data <:+: (toLowerStr s).data
      · rw [validate_common h1 h2 h3]
        constructor
        · intro h
          exact absurd h (by simp)
        · rintro ⟨-, -, hall⟩
          obtain ⟨w, hw, hi⟩ := h3
          exact absurd hi (hall w hw)
      · push_neg at h3
        rw [validate_ok h1 h2 h3]
        exact ⟨fun _ => ⟨h1, by omega, h3⟩, fun _ => rfl⟩

/-- Witness for C5: the too-short secret `"short"` makes the whole flow
abort with the specific reason and an empty effect list. -/
theorem claim_C5_witness :
    authenticate ⟨"dev1", "cid", "short"⟩ ⟨"S", "V", "C"⟩ rlInit [] 0 [] =
      ⟨some ⟨false, none, none, none,
        some "Client secret is too short (should be 32+ characters)"⟩, [], []⟩ := by
  rw [claim_C5.2.2.2.2 ⟨"dev1", "cid", "short"⟩ ⟨"S", "V", "C"⟩ rlInit [] 0 [] (by decide)]
  rfl

/-! ## Claims about the callback handler -/

/-- C1: a callback-path request whose `state` does not exactly equal the
session's state is answered with HTTP 400 and the security page, the socket
is closed, and the flow resolves as the security failure — whatever `code`
or `error` the query also carries — and the token exchange is never invoked
(no exchange, no network call, rate limiter untouched).  At the listener
level the same request closes the listener and writes the security failure
into the (write-once) resolution. -/
theorem claim_C1 (sessionState : String) (req : CallbackRequest) (now : Int)
    (rl : RLState) (net : FetchOutcome)
    (hpath : req.pathname = "/callback") (hstate : req.state ≠ some sessionState) :
    handleCallbackRequest sessionState req now rl net =
      (⟨400, .securityError, some ⟨false, none, none, none, some "Invalid state parameter"⟩,
        true, false, false⟩, rl) ∧
    (∀ st : ServerState, st.listening = true → st.rl = rl →
      serverStep sessionState st (.request req now net) =
        { st with
            listening := false,
            resolution := resolveOnce st.resolution
              ⟨false, none, none, none, some "Invalid state parameter"⟩ }) := by
  have hmain : handleCallbackRequest sessionState req now rl net =
      (⟨400, .securityError, some ⟨false, none, none, none, some "Invalid state parameter"⟩,
        true, false, false⟩, rl) := by
    unfold handleCallbackRequest
    rw [if_pos hpath, if_pos hstate]
  refine ⟨hmain, ?_⟩
  intro st hl hrl
  simp only [serverStep, hl, if_true, hrl, hmain]
  simp

/-- Witness for C1: correct code, wrong state. -/
theorem claim_C1_witness :
    handleCallbackRequest "S" ⟨"/callback", some "abc123", some "denied", some "X"⟩ 0 rlInit
      (.httpError 500 "b") =
      (⟨400, .securityError, some ⟨false, none, none, none, some "Invalid state parameter"⟩,
        true, false, false⟩, rlInit) :=
  (claim_C1 "S" ⟨"/callback", some "abc123", some "denied", some "X"⟩ 0 rlInit
    (.httpError 500 "b") rfl (by decide)).1

/-- C9 counterexample: a callback request that carries an `error` parameter
(the empty string) together with the matching state and a code is **not**
resolved as a provider-denied failure — the JS truthiness test `if (error)`
skips the branch, and the token exchange IS invoked (here succeeding with
a 200 response). -/
theorem claim_C9_counterexample :
    (⟨"/callback", some "abc123", some "", some "S"⟩ : CallbackRequest).error = some "" ∧
    (handleCallbackRequest "S" ⟨"/callback", some "abc123", some "", some "S"⟩ 70000 rlInit
      (.ok ⟨some "AT1", none, some 1800, none, none⟩)).1.exchangeInvoked = true ∧
    (handleCallbackRequest "S" ⟨"/callback", some "abc123", some "", some "S"⟩ 70000 rlInit
      (.ok ⟨some "AT1", none, some 1800, none, none⟩)).1.status = 200 :=
  ⟨rfl, rfl, rfl⟩

/-- C9 (amended): a callback request with matching state whose query carries
a **non-empty** `error` parameter is answered 400 with the provider-denied
page, the socket closes, the flow resolves as the provider-denied failure
carrying the error string, and the token exchange is never invoked. -/
theorem claim_C9_amended (sessionState e : String) (req : CallbackRequest) (now : Int)
    (rl : RLState) (net : FetchOutcome)
    (hpath : req.pathname = "/callback") (hstate : req.state = some sessionState)
    (herr : req.error = some e) (hne : e ≠ "") :
    handleCallbackRequest sessionState req now rl net =
      (⟨400, .errorPage ("OAuth error: " ++ e),
        some ⟨false, none, none, none, some ("OAuth error: " ++ e)⟩,
        true, false, false⟩, rl) := by
  unfold handleCallbackRequest
  rw [if_pos hpath]
  rw [if_neg (show ¬ req.state ≠ some sessionState by simp [hstate])]
  rw [if_pos (show truthyStr req.error = true by rw [herr]; simp [truthyStr, hne])]
  simp [herr]

/-- Witness for C9 (amended): `error=access_denied` with the right state. -/
theorem claim_C9_witness :
    handleCallbackRequest "S" ⟨"/callback", some "abc123", some "access_denied", some "S"⟩ 0
      rlInit (.httpError 500 "b") =
      (⟨400, .errorPage "OAuth error: access_denied",
        some ⟨false, none, none, none, some "OAuth error: access_denied"⟩,
        true, false, false⟩, rlInit) :=
  claim_C9_amended "S" "access_denied" ⟨"/callback", some "abc123", some "access_denied", some "S"⟩
    0 rlInit (.httpError 500 "b") rfl rfl rfl (by decide)

/-! ## Claims about the redirect URIs -/

/-- C2 counterexample: in the code-paste authentication flow of
`servicenow-oauth.ts`, the redirect URI placed in the authorization URL (and
the one sent in the token-exchange body) is the out-of-band URN, not
`http://localhost:3005/callback` — so the claim's "both equal
`http://localhost:3005/callback`" fails for that flow. -/
theorem claim_C2_counterexample :
    lookupParam "redirect_uri" (SnowPaste.generateAuthUrlParams "cid" "S" "C") =
      some "urn:ietf:wg:oauth:2.0:oob" ∧
    lookupParam "redirect_uri" (SnowPaste.exchangeTokenParams "cid" "sec" "code" "V") =
      some "urn:ietf:wg:oauth:2.0:oob" ∧
    ("urn:ietf:wg:oauth:2.0:oob" : String) ≠ "http://localhost:3005/callback" :=
  ⟨rfl, rfl, by decide⟩

/-- C2 (amended): within each flow the redirect URI of the authorization URL
and of the token-exchange POST body are character-for-character identical;
in the callback-server flow of `attach.ts` both equal
`http://localhost:3005/callback` (the URI `authenticate` builds from the
fixed port 3005), while in the code-paste flow of `servicenow-oauth.ts`
both equal `urn:ietf:wg:oauth:2.0:oob`. -/
theorem claim_C2_amended (clientId clientSecret state challenge code verifier : String) :
    lookupParam "redirect_uri"
        (generateAuthUrlWithCallbackParams clientId
          ("http://localhost:" ++ toString attachPort ++ "/callback") state challenge) =
      some "http://localhost:3005/callback" ∧
    lookupParam "redirect_uri" (exchangeTokenParams clientId clientSecret code verifier) =
      some "http://localhost:3005/callback" ∧
    lookupParam "redirect_uri" (SnowPaste.generateAuthUrlParams clientId state challenge) =
      some "urn:ietf:wg:oauth:2.0:oob" ∧
    lookupParam "redirect_uri" (SnowPaste.exchangeTokenParams clientId clientSecret code verifier) =
      some "urn:ietf:wg:oauth:2.0:oob" :=
  ⟨rfl, rfl, rfl, rfl⟩

/-! ## Lemmas: listener state machine -/

lemma serverStep_resolution_some {ss : String} {st : ServerState} {r : AuthResult}
    (h : st.resolution = some r) (ev : FlowEvent) :
    (serverStep ss st ev).resolution = some r := by
  cases ev with
  | timerFire => simp [serverStep, h, resolveOnce]
  | handlerThrow msg =>
    simp only [serverStep]
    split
    · simp [h, resolveOnce]
    · exact h
  | request req now net =>
    simp only [serverStep]
    split
    · rcases hh : handleCallbackRequest ss req now st.rl net with ⟨hr, rl1⟩
      cases hres : hr.resolved with
      | none => simp [hres, h]
      | some r2 => simp [hres, h, resolveOnce]
    · exact h

lemma runServer_resolution_some {ss : String} {r : AuthResult} :
    ∀ (evs : List FlowEvent) (st : ServerState), st.resolution = some r →
      (runServer ss st evs).resolution = some r
  | [], _, h => h
  | ev :: evs, st, h =>
    runServer_resolution_some evs (serverStep ss st ev) (serverStep_resolution_some h ev)

lemma runServer_resolution_isSome {ss : String} {st : ServerState}
    (evs : List FlowEvent) (h : st.resolution.isSome = true) :
    ((runServer ss st evs).resolution).isSome = true := by
  obtain ⟨r, hr⟩ := Option.isSome_iff_exists.mp h
  rw [runServer_resolution_some evs st hr]
  rfl

lemma serverStep_timer_isSome (ss : String) (st : ServerState) :
    ((serverStep ss st FlowEvent.timerFire).resolution).isSome = true := by
  cases h : st.resolution with
  | none => simp [serverStep, resolveOnce, h]
  | some r => simp [serverStep, resolveOnce, h]

lemma runServer_timer_resolves {ss : String} :
    ∀ (evs : List FlowEvent) (st : ServerState), FlowEvent.timerFire ∈ evs →
      ((runServer ss st evs).resolution).isSome = true
  | [], _, h => by simp at h
  | ev :: evs, st, h => by
    rcases List.mem_cons.mp h with heq | hmem
    · subst heq
      exact runServer_resolution_isSome evs (serverStep_timer_isSome ss st)
    · exact runServer_timer_resolves evs _ hmem

/-- C6: exactly one resolution per flow.  (i) Once the flow's promise is
resolved to `r`, no later event — a timer firing after a callback already
resolved, or any further request — changes it: after any event suffix the
resolution is still exactly `r`.  (ii) If the five-minute timer fires during
the event sequence, the flow ends resolved (the timeout-or-callback race
always produces a resolution, and the timer is safe to fire on an
already-closed, already-resolved listener).  (iii) A request arriving after
the listener closed is refused by the socket and changes nothing — it can
neither resolve again nor alter any listener state. -/
theorem claim_C6 :
    (∀ (ss : String) (st : ServerState) (evs : List FlowEvent) (r : AuthResult),
      st.resolution = some r → (runServer ss st evs).resolution = some r) ∧
    (∀ (ss : String) (st : ServerState) (evs : List FlowEvent),
      FlowEvent.timerFire ∈ evs → ((runServer ss st evs).resolution).isSome = true) ∧
    (∀ (ss : String) (st : ServerState) (req : CallbackRequest) (now : Int) (net : FetchOutcome),
      st.listening = false → serverStep ss st (.request req now net) = st) := by
  refine ⟨fun ss st evs r h => runServer_resolution_some evs st h,
    fun ss st evs h => runServer_timer_resolves evs st h,
    fun ss st req now net h => ?_⟩
  simp [serverStep, h]

/-- Witness for C6: a closed, already-resolved listener keeps its resolution
across a late timer fire; a timer fire resolves a fresh listener; a late
request on a closed listener is a no-op. -/
theorem claim_C6_witness :
    (runServer "S" ⟨false, some timeoutResult, rlInit, 0, 0⟩
      [FlowEvent.timerFire]).resolution = some timeoutResult ∧
    ((runServer "S" (serverInit rlInit) [FlowEvent.timerFire]).resolution).isSome = true ∧
    serverStep "S" ⟨false, some timeoutResult, rlInit, 0, 0⟩
      (.request ⟨"/callback", some "abc123", none, some "S"⟩ 0 (.httpError 500 "b")) =
      ⟨false, some timeoutResult, rlInit, 0, 0⟩ :=
  ⟨claim_C6.1 "S" ⟨false, some timeoutResult, rlInit, 0, 0⟩ [FlowEvent.timerFire]
      timeoutResult rfl,
    claim_C6.2.1 "S" (serverInit rlInit) [FlowEvent.timerFire] (List.mem_cons_self _ _),
    claim_C6.2.2 "S" ⟨false, some timeoutResult, rlInit, 0, 0⟩
      ⟨"/callback", some "abc123", none, some "S"⟩ 0 (.httpError 500 "b") rfl⟩

/-! ## Lemmas: authenticate case analysis -/

lemma authenticate_pending {opts : OAuthOptions} {gen : GenMaterial} {rl0 : RLState}
    {evs : List FlowEvent} {persistNow : Int} {store : Store}
    (h1 : (validateClientSecret opts.clientSecret).valid = true)
    (hres : (runServer gen.stateParam (serverInit rl0) evs).resolution = none) :
    authenticate opts gen rl0 evs persistNow store =
      ⟨none, store, baseEffects (attachAuthUrl opts gen)
        (runServer gen.stateParam (serverInit rl0) evs).networkCalls⟩ := by
  simp only [authenticate]
  rw [if_neg (by simp [h1]), hres]

lemma authenticate_resolved_success {opts : OAuthOptions} {gen : GenMaterial} {rl0 : RLState}
    {evs : List FlowEvent} {persistNow : Int} {store : Store} {r : AuthResult}
    (h1 : (validateClientSecret opts.clientSecret).valid = true)
    (hres : (runServer gen.stateParam (serverInit rl0) evs).resolution = some r)
    (hs : (r.success && truthyStr r.accessToken) = true) :
    authenticate opts gen rl0 evs persistNow store =
      ⟨some r, Auth.set store "servicenow" (attachCred opts r persistNow),
        baseEffects (attachAuthUrl opts gen)
          (runServer gen.stateParam (serverInit rl0) evs).networkCalls ++
          [Effect.storeWrite "servicenow" (attachCred opts r persistNow)]⟩ := by
  simp only [authenticate]
  rw [if_neg (by simp [h1]), hres]
  dsimp only
  rw [if_pos hs]

lemma authenticate_resolved_fail {opts : OAuthOptions} {gen : GenMaterial} {rl0 : RLState}
    {evs : List FlowEvent} {persistNow : Int} {store : Store} {r : AuthResult}
    (h1 : (validateClientSecret opts.clientSecret).valid = true)
    (hres : (runServer gen.stateParam (serverInit rl0) evs).resolution = some r)
    (hs : (r.success && truthyStr r.accessToken) = false) :
    authenticate opts gen rl0 evs persistNow store =
      ⟨some r, store, baseEffects (attachAuthUrl opts gen)
        (runServer gen.stateParam (serverInit rl0) evs).networkCalls⟩ := by
  simp only [authenticate]
  rw [if_neg (by simp [h1]), hres]
  dsimp only
  rw [if_neg (by simp [hs])]

lemma isStoreWrite_false_of_mem_base {e : Effect} {u : String} {n : Nat}
    (h : e ∈ baseEffects u n) : e.isStoreWrite = false := by
  simp only [baseEffects, List.mem_append, List.mem_cons, List.mem_replicate,
    List.not_mem_nil, or_false] at h
  rcases h with (rfl | rfl | rfl) | ⟨-, rfl⟩ <;> rfl

lemma valid_true_of_not_false {v : ValidationResult}
    (h : ¬ (v.valid = false)) : v.valid = true := by
  revert h
  cases v.valid <;> simp

lemma authenticate_storeWrite_inversion {opts : OAuthOptions} {gen : GenMaterial}
    {rl0 : RLState} {evs : List FlowEvent} {persistNow : Int} {store : Store}
    {k : String} {cred : Info}
    (h : Effect.storeWrite k cred ∈ (authenticate opts gen rl0 evs persistNow store).effects) :
    ∃ r, (authenticate opts gen rl0 evs persistNow store).result = some r ∧
      r.success = true ∧ truthyStr r.accessToken = true ∧
      k = "servicenow" ∧ cred = attachCred opts r persistNow ∧
      (authenticate opts gen rl0 evs persistNow store).store =
        Auth.set store "servicenow" (attachCred opts r persistNow) := by
  by_cases h1 : (validateClientSecret opts.clientSecret).valid = false
  · rw [authenticate_invalid h1] at h
    simp at h
  · have h1' := valid_true_of_not_false h1
    cases hres : (runServer gen.stateParam (serverInit rl0) evs).resolution with
    | none =>
      rw [authenticate_pending h1' hres] at h
      have := isStoreWrite_false_of_mem_base h
      simp [Effect.isStoreWrite] at this
    | some r =>
      by_cases hs : (r.success && truthyStr r.accessToken) = true
      · rw [authenticate_resolved_success h1' hres hs] at h ⊢
        have hmem : Effect.storeWrite k cred ∈
            [Effect.storeWrite "servicenow" (attachCred opts r persistNow)] := by
          rcases List.mem_append.mp h with hb | ht
          · have := isStoreWrite_false_of_mem_base hb
            simp [Effect.isStoreWrite] at this
          · exact ht
        have heq := List.mem_singleton.mp hmem
        injection heq with hk hc
        obtain ⟨hsucc, htok⟩ : r.success = true ∧ truthyStr r.accessToken = true := by
          simpa using hs
        exact ⟨r, rfl, hsucc, htok, hk, hc, rfl⟩
      · have hs' : (r.success && truthyStr r.accessToken) = false := by
          revert hs
          cases r.success && truthyStr r.accessToken <;> simp
        rw [authenticate_resolved_fail h1' hres hs'] at h
        have := isStoreWrite_false_of_mem_base h
        simp [Effect.isStoreWrite] at this

lemma refresh_storeWrite_inversion {i c s rt : String} {now : Int} {rl : RLState}
    {net : FetchOutcome} {store : Store} {k : String} {cred : Info}
    (h : Effect.storeWrite k cred ∈ (refreshAccessToken i c s rt now rl net store).effects) :
    ∃ body : TokenJson, net = FetchOutcome.ok body ∧
      truthyStr body.error = false ∧
      k = "servicenow" ∧
      cred = Info.servicenowOAuth i c s body.access_token
        (some (if truthyStr body.refresh_token then body.refresh_token.getD "" else rt))
        (if truthyInt body.expires_in then some (now + body.expires_in.getD 0 * 1000)
         else none) ∧
      (refreshAccessToken i c s rt now rl net store).result =
        ⟨true, body.access_token,
          some (if truthyStr body.refresh_token then body.refresh_token.getD "" else rt),
          body.expires_in, none⟩ := by
  unfold refreshAccessToken at h ⊢
  rcases hc : checkTokenRequestRateLimit now rl with ⟨allowed, rl1⟩
  rw [hc] at h
  cases allowed with
  | false => simp at h
  | true =>
    cases net with
    | thrown msg => simp at h
    | httpError status text => simp at h
    | ok body =>
      dsimp only at h ⊢
      by_cases herr : truthyStr body.error = true
      · simp only [if_pos herr] at h
        simp at h
      · have herr' : truthyStr body.error = false := by
          revert herr
          cases truthyStr body.error <;> simp
        simp only [if_neg herr] at h ⊢
        simp only [List.mem_cons, List.not_mem_nil, or_false] at h
        rcases h with h | h
        · exact absurd h (by simp)
        · injection h with hk hc2
          exact ⟨body, rfl, herr', hk, hc2, rfl⟩

/-! ## Claims about persistence -/

/-- C10: the credential store is written only by a successful resolution.
If `authenticate` resolves with a result that is not a success with a truthy
access token, or does not resolve at all, the store is returned unchanged
and no store-write effect occurs; conversely any store-write effect in the
run implies the resolved result had `success = true` and a present (truthy)
access token. -/
theorem claim_C10 (opts : OAuthOptions) (gen : GenMaterial) (rl0 : RLState)
    (evs : List FlowEvent) (persistNow : Int) (store : Store) :
    (∀ r, (authenticate opts gen rl0 evs persistNow store).result = some r →
      ¬ (r.success = true ∧ truthyStr r.accessToken = true) →
      (authenticate opts gen rl0 evs persistNow store).store = store ∧
      ∀ e ∈ (authenticate opts gen rl0 evs persistNow store).effects,
        e.isStoreWrite = false) ∧
    ((authenticate opts gen rl0 evs persistNow store).result = none →
      (authenticate opts gen rl0 evs persistNow store).store = store ∧
      ∀ e ∈ (authenticate opts gen rl0 evs persistNow store).effects,
        e.isStoreWrite = false) ∧
    (∀ e ∈ (authenticate opts gen rl0 evs persistNow store).effects,
      e.isStoreWrite = true →
      ∃ r, (authenticate opts gen rl0 evs persistNow store).result = some r ∧
        r.success = true ∧ truthyStr r.accessToken = true) := by
  refine ⟨?_, ?_, ?_⟩
  · intro r hr hbad
    by_cases h1 : (validateClientSecret opts.clientSecret).valid = false
    · rw [authenticate_invalid h1]
      exact ⟨rfl, by simp⟩
    · have h1' := valid_true_of_not_false h1
      cases hres : (runServer gen.stateParam (serverInit rl0) evs).resolution with
      | none =>
        rw [authenticate_pending h1' hres]
        exact ⟨rfl, fun e he => isStoreWrite_false_of_mem_base he⟩
      | some r2 =>
        by_cases hs : (r2.success && truthyStr r2.accessToken) = true
        · exfalso
          rw [authenticate_resolved_success h1' hres hs] at hr
          have : r2 = r := by injection hr
          subst this
          exact hbad (by simpa using hs)
        · have hs' : (r2.success && truthyStr r2.accessToken) = false := by
            revert hs
            cases r2.success && truthyStr r2.accessToken <;> simp
          rw [authenticate_resolved_fail h1' hres hs']
          exact ⟨rfl, fun e he => isStoreWrite_false_of_mem_base he⟩
  · intro hr
    by_cases h1 : (validateClientSecret opts.clientSecret).valid = false
    · rw [authenticate_invalid h1] at hr
      simp at hr
    · have h1' := valid_true_of_not_false h1
      cases hres : (runServer gen.stateParam (serverInit rl0) evs).resolution with
      | none =>
        rw [authenticate_pending h1' hres]
        exact ⟨rfl, fun e he => isStoreWrite_false_of_mem_base he⟩
      | some r2 =>
        exfalso
        by_cases hs : (r2.success && truthyStr r2.accessToken) = true
        · rw [authenticate_resolved_success h1' hres hs] at hr
          simp at hr
        · have hs' : (r2.success && truthyStr r2.accessToken) = false := by
            revert hs
            cases r2.success && truthyStr r2.accessToken <;> simp
          rw [authenticate_resolved_fail h1' hres hs'] at hr
          simp at hr
  · intro e he hsw
    cases e with
    | storeWrite k i =>
      obtain ⟨r, hr, hsucc, htok, -⟩ := authenticate_storeWrite_inversion he
      exact ⟨r, hr, hsucc, htok⟩
    | genSecret => simp [Effect.isStoreWrite] at hsw
    | openBrowser u => simp [Effect.isStoreWrite] at hsw
    | bindListener p => simp [Effect.isStoreWrite] at hsw
    | network => simp [Effect.isStoreWrite] at hsw

/-- Witness for C10: a flow resolved by a wrong-state callback (a security
failure) leaves the empty store empty. -/
theorem claim_C10_witness :
    (authenticate ⟨"https://dev1.service-now.com", "cid",
      "ABCDEFGHIJKLMNOPQRSTUVWXYZ0123456789ABCD"⟩ ⟨"S", "V", "C"⟩ rlInit
      [.request ⟨"/callback", some "abc123", none, some "X"⟩ 70000 (.httpError 500 "b")]
      70123 []).store = ([] : Store) :=
  ((claim_C10 ⟨"https://dev1.service-now.com", "cid",
      "ABCDEFGHIJKLMNOPQRSTUVWXYZ0123456789ABCD"⟩ ⟨"S", "V", "C"⟩ rlInit
      [.request ⟨"/callback", some "abc123", none, some "X"⟩ 70000 (.httpError 500 "b")]
      70123 []).1
    ⟨false, none, none, none, some "Invalid state parameter"⟩ (by rfl) (by simp)).1

/-- C3 counterexample: a successful flow whose token response carries no
`refresh_token` persists a `servicenow-oauth` record with the refresh token
absent — so "once persisted by this core both tokens are present" fails on
the code. -/
theorem claim_C3_counterexample :
    Auth.get ((authenticate ⟨"https://dev1.service-now.com", "cid",
        "ABCDEFGHIJKLMNOPQRSTUVWXYZ0123456789ABCD"⟩ ⟨"S", "V", "C"⟩ rlInit
        [.request ⟨"/callback", some "abc123", none, some "S"⟩ 70000
          (.ok ⟨some "AT1", none, some 1800, none, none⟩)] 70123 []).store) "servicenow" =
      some (Info.servicenowOAuth "https://dev1.service-now.com" "cid"
        "ABCDEFGHIJKLMNOPQRSTUVWXYZ0123456789ABCD" (some "AT1") none (some 1870123)) := by
  rfl

/-- C3 (amended): every record persisted by `authenticate` has a present,
non-empty access token, and its access/refresh tokens are exactly those of
the resolved result (so the refresh token is absent exactly when the token
response omitted it); every record persisted by `refreshAccessToken` has a
present refresh token (the response's, or the prior one as fallback). -/
theorem claim_C3_amended :
    (∀ (opts : OAuthOptions) (gen : GenMaterial) (rl0 : RLState) (evs : List FlowEvent)
        (persistNow : Int) (store : Store) (k i c s : String) (a r : Option String)
        (x : Option Int),
      Effect.storeWrite k (Info.servicenowOAuth i c s a r x) ∈
        (authenticate opts gen rl0 evs persistNow store).effects →
      truthyStr a = true ∧
      ((authenticate opts gen rl0 evs persistNow store).result).map AuthResult.accessToken =
        some a ∧
      ((authenticate opts gen rl0 evs persistNow store).result).map AuthResult.refreshToken =
        some r) ∧
    (∀ (i c s rt : String) (now : Int) (rl : RLState) (net : FetchOutcome) (store : Store)
        (k i2 c2 s2 : String) (a r : Option String) (x : Option Int),
      Effect.storeWrite k (Info.servicenowOAuth i2 c2 s2 a r x) ∈
        (refreshAccessToken i c s rt now rl net store).effects →
      r.isSome = true) := by
  constructor
  · intro opts gen rl0 evs persistNow store k i c s a r x h
    obtain ⟨res, hres, hsucc, htok, hk, hc, hst⟩ := authenticate_storeWrite_inversion h
    unfold attachCred at hc
    injection hc with h1 h2 h3 h4 h5 h6
    refine ⟨by rw [h4]; exact htok, ?_, ?_⟩
    · rw [hres, h4]
      rfl
    · rw [hres, h5]
      rfl
  · intro i c s rt now rl net store k i2 c2 s2 a r x h
    obtain ⟨body, hnet, herr, hk, hc, hresult⟩ := refresh_storeWrite_inversion h
    injection hc with h1 h2 h3 h4 h5 h6
    rw [h5]
    rfl

/-- Witness for C3 (amended), at the run of the counterexample: the persisted
access token is the truthy `"AT1"` and the persisted refresh token mirrors
the resolved result's (absent) one. -/
theorem claim_C3_witness :
    truthyStr (some "AT1") = true ∧
    ((authenticate ⟨"https://dev1.service-now.com", "cid",
        "ABCDEFGHIJKLMNOPQRSTUVWXYZ0123456789ABCD"⟩ ⟨"S", "V", "C"⟩ rlInit
        [.request ⟨"/callback", some "abc123", none, some "S"⟩ 70000
          (.ok ⟨some "AT1", none, some 1800, none, none⟩)] 70123 []).result).map
      AuthResult.accessToken = some (some "AT1") ∧
    ((authenticate ⟨"https://dev1.service-now.com", "cid",
        "ABCDEFGHIJKLMNOPQRSTUVWXYZ0123456789ABCD"⟩ ⟨"S", "V", "C"⟩ rlInit
        [.request ⟨"/callback", some "abc123", none, some "S"⟩ 70000
          (.ok ⟨some "AT1", none, some 1800, none, none⟩)] 70123 []).result).map
      AuthResult.refreshToken = some none :=
  claim_C3_amended.1 ⟨"https://dev1.service-now.com", "cid",
      "ABCDEFGHIJKLMNOPQRSTUVWXYZ0123456789ABCD"⟩ ⟨"S", "V", "C"⟩ rlInit
    [.request ⟨"/callback", some "abc123", none, some "S"⟩ 70000
      (.ok ⟨some "AT1", none, some 1800, none, none⟩)] 70123 [] "servicenow"
    "https://dev1.service-now.com" "cid" "ABCDEFGHIJKLMNOPQRSTUVWXYZ0123456789ABCD"
    (some "AT1") none (some 1870123) (by decide)

/-- C7: whenever a persisted `servicenow-oauth` record carries an expiry, that
expiry is the absolute epoch-milliseconds value `now + expires_in * 1000`
computed from the clock reading of the persisting operation and the token
response's `expires_in` — for `authenticate` (the resolved result's
`expiresIn`) and for `refreshAccessToken` (the refresh response's
`expires_in`) alike. -/
theorem claim_C7 :
    (∀ (opts : OAuthOptions) (gen : GenMaterial) (rl0 : RLState) (evs : List FlowEvent)
        (persistNow : Int) (store : Store) (k i c s : String) (a r : Option String) (e : Int),
      Effect.storeWrite k (Info.servicenowOAuth i c s a r (some e)) ∈
        (authenticate opts gen rl0 evs persistNow store).effects →
      (((authenticate opts gen rl0 evs persistNow store).result).bind
        AuthResult.expiresIn).isSome = true ∧
      e = persistNow + (((authenticate opts gen rl0 evs persistNow store).result).bind
        AuthResult.expiresIn).getD 0 * 1000) ∧
    (∀ (i c s rt : String) (now : Int) (rl : RLState) (net : FetchOutcome) (store : Store)
        (k i2 c2 s2 : String) (a r : Option String) (e : Int),
      Effect.storeWrite k (Info.servicenowOAuth i2 c2 s2 a r (some e)) ∈
        (refreshAccessToken i c s rt now rl net store).effects →
      ((refreshAccessToken i c s rt now rl net store).result.expiresIn).isSome = true ∧
      e = now + ((refreshAccessToken i c s rt now rl net store).result.expiresIn).getD 0 * 1000) := by
  constructor
  · intro opts gen rl0 evs persistNow store k i c s a r e h
    obtain ⟨res, hres, hsucc, htok, hk, hc, hst⟩ := authenticate_storeWrite_inversion h
    unfold attachCred at hc
    injection hc with h1 h2 h3 h4 h5 h6
    rw [hres]
    show res.expiresIn.isSome = true ∧ e = persistNow + res.expiresIn.getD 0 * 1000
    by_cases hexp : truthyInt res.expiresIn = true
    · rw [if_pos hexp] at h6
      cases hx : res.expiresIn with
      | none => rw [hx] at hexp; simp [truthyInt] at hexp
      | some n =>
        rw [hx] at h6
        simp only [Option.getD_some] at h6
        injection h6 with h6v
        exact ⟨rfl, by rw [h6v]; rfl⟩
    · rw [if_neg hexp] at h6
      exact absurd h6 (by simp)
  · intro i c s rt now rl net store k i2 c2 s2 a r e h
    obtain ⟨body, hnet, herr, hk, hc, hresult⟩ := refresh_storeWrite_inversion h
    injection hc with h1 h2 h3 h4 h5 h6
    rw [hresult]
    show body.expires_in.isSome = true ∧ e = now + body.expires_in.getD 0 * 1000
    by_cases hexp : truthyInt body.expires_in = true
    · rw [if_pos hexp] at h6
      cases hx : body.expires_in with
      | none => rw [hx] at hexp; simp [truthyInt] at hexp
      | some n =>
        rw [hx] at h6
        simp only [Option.getD_some] at h6
        injection h6 with h6v
        exact ⟨rfl, by rw [h6v]; rfl⟩
    · rw [if_neg hexp] at h6
      exact absurd h6 (by simp)

/-- Witness for C7 at the counterexample run: the persisted expiry 1870123
is 70123 + 1800·1000 with 1800 the response's `expires_in`. -/
theorem claim_C7_witness :
    (((authenticate ⟨"https://dev1.service-now.com", "cid",
        "ABCDEFGHIJKLMNOPQRSTUVWXYZ0123456789ABCD"⟩ ⟨"S", "V", "C"⟩ rlInit
        [.request ⟨"/callback", some "abc123", none, some "S"⟩ 70000
          (.ok ⟨some "AT1", none, some 1800, none, none⟩)] 70123 []).result).bind
      AuthResult.expiresIn).isSome = true ∧
    (1870123 : Int) = 70123 + (((authenticate ⟨"https://dev1.service-now.com", "cid",
        "ABCDEFGHIJKLMNOPQRSTUVWXYZ0123456789ABCD"⟩ ⟨"S", "V", "C"⟩ rlInit
        [.request ⟨"/callback", some "abc123", none, some "S"⟩ 70000
          (.ok ⟨some "AT1", none, some 1800, none, none⟩)] 70123 []).result).bind
      AuthResult.expiresIn).getD 0 * 1000 :=
  claim_C7.1 ⟨"https://dev1.service-now.com", "cid",
      "ABCDEFGHIJKLMNOPQRSTUVWXYZ0123456789ABCD"⟩ ⟨"S", "V", "C"⟩ rlInit
    [.request ⟨"/callback", some "abc123", none, some "S"⟩ 70000
      (.ok ⟨some "AT1", none, some 1800, none, none⟩)] 70123 [] "servicenow"
    "https://dev1.service-now.com" "cid" "ABCDEFGHIJKLMNOPQRSTUVWXYZ0123456789ABCD"
    (some "AT1") none 1870123 (by decide)

end SnowCode
